import Mathlib

/-!
Verification of the ARC protocol reference implementation (TypeScript).

This file shallowly embeds the parts of the repository that the checked
claims are about:

* the server dispatcher `ARCServer.handleRequest` together with its helpers
  `createErrorResponse`, `createErrorFromException`, `getSupportedMethods`
  and the authentication block (`src/server/index.ts`),
* the server-side SSE stream encoder `ARCServer.createSSEGenerator`
  (`src/server/index.ts`),
* the client-side response validation `ARCClient.validateResponse` and the
  client-side stream decoding loop `ARCClient.handleStreamingRequest`
  (the client source file),
* the error-code namespaces of the protocol specification
  (`specification/ARC-Protocol-Specification.md`) and, modelled from the
  spec, the retryability classifier of the error taxonomy.

JavaScript runtime values that the code inspects dynamically are embedded
as `JsValue`; a field of a JS object that may be absent is embedded as an
`Option` (with `none` for an absent key; a key present with the value
`undefined` is `some JsValue.undefined` where the distinction matters).
-/

namespace Arc

/-- A JavaScript runtime value, restricted to the shapes the embedded code
constructs or inspects: `null`, `undefined`, booleans, (integer) numbers,
strings and arrays of strings. -/
inductive JsValue where
  | null
  | undefined
  | bool (b : Bool)
  | num (n : Int)
  | str (s : String)
  | strList (xs : List String)
deriving DecidableEq

/-- JavaScript truthiness of a value (`if (v)`): `null`, `undefined`,
`false`, `0` and the empty string are falsy, everything else (including
any array) is truthy. -/
def JsValue.truthy : JsValue → Bool
  | .null => false
  | .undefined => false
  | .bool b => b
  | .num n => n != 0
  | .str s => s != ""
  | .strList _ => true

/-- JavaScript string coercion `String(v)` as used in template literals. -/
def JsValue.toStr : JsValue → String
  | .null => "null"
  | .undefined => "undefined"
  | .bool b => if b then "true" else "false"
  | .num n => toString n
  | .str s => s
  | .strList xs => String.intercalate "," xs

/-- The `details` payload of an error object: a JS object literal, embedded
as its list of key/value pairs in source order. -/
abbrev ErrorDetails := List (String × JsValue)

/-- The ARC `ErrorObject` (`types`): numeric code, message and optional
details; `details := none` embeds an absent (or `undefined`) key. -/
structure ErrorObject where
  code : Int
  message : String
  details : Option ErrorDetails := none
deriving DecidableEq

/-- A raw inbound ARC request object as `handleRequest` receives it: every
envelope key may be absent (the TS code checks presence with `in`).
`method`, `requestAgent`, `targetAgent` and `traceId` are embedded as
strings, the shape every reachable check in the claims exercises; `id` and
`params` stay fully dynamic. -/
structure RawRequest where
  arc : Option JsValue := none
  id : Option JsValue := none
  method : Option String := none
  requestAgent : Option String := none
  targetAgent : Option String := none
  params : Option JsValue := none
  traceId : Option String := none
deriving DecidableEq

/-- A response envelope as the server constructs it. Both response
literals in the source (`handleRequest`'s success literal and
`createErrorResponse`) always carry the `result` and the `error` key, so
the embedding makes both fields total: `result` holds `JsValue.null` on
error paths and `error` holds `none` (the JS `null`) on the success path.
`traceId := none` embeds a key that is absent or holds `undefined` (both
serialize identically). -/
structure ARCResponse where
  arc : String
  id : JsValue
  responseAgent : String
  targetAgent : String
  traceId : Option String
  result : JsValue
  error : Option ErrorObject
deriving DecidableEq

/-- The result of the caller-supplied `authValidator` (`AuthResult`). -/
structure AuthResult where
  authenticated : Bool
  scopes : Option (List String) := none
  subject : Option String := none

/-- The `auth` part of a request context (`RequestContext.auth`). -/
structure AuthContext where
  authenticated : Bool
  token : Option String := none
  scopes : Option (List String) := none
  subject : Option String := none
deriving DecidableEq

/-- The execution context handed to a method handler (`RequestContext`). -/
structure RequestContext where
  request_id : JsValue
  method : String
  request_agent : String
  target_agent : String
  trace_id : Option String
  raw_request : RawRequest
  auth : AuthContext
deriving DecidableEq

/-- A value thrown by a handler. `object` embeds a non-null JS object:
its `code` and `message` keys may be present or absent, it may carry a
`details` key, and it may be an `Error` instance with a `name` and a
`stack`. `primitive` embeds any other thrown value by its string
coercion. -/
inductive ThrownValue where
  | object (code : Option Int) (message : Option String)
      (details : Option ErrorDetails)
      (isErrorInstance : Bool) (name : String) (stack : Option String)
  | primitive (asString : String)
deriving DecidableEq

/-- JavaScript `String(v)` for a thrown value: plain objects coerce to
"[object Object]" (custom `toString` overrides are out of scope). -/
def ThrownValue.stringCoercion : ThrownValue → String
  | .object _ _ _ _ _ _ => "[object Object]"
  | .primitive s => s

/-- The outcome of running a method handler: a returned result value or a
thrown value. -/
inductive HandlerOutcome where
  | ok (result : JsValue)
  | throws (e : ThrownValue)

/-- A registered method handler (`MethodHandler`), embedded as a pure
function of the parameters and the request context. -/
def MethodHandler := JsValue → RequestContext → HandlerOutcome

/-- The server state (`ARCServer`): local agent identity, the
authentication switch, the handler table, the per-method required-scope
table, the optional token validator, and whether `NODE_ENV` is
"production" (read by `createErrorFromException`). -/
structure ARCServer where
  agentId : String
  enableAuth : Bool := false
  handlers : List (String × MethodHandler) := []
  requiredScopes : List (String × List String) := []
  authValidator : Option (String → AuthResult) := none
  nodeEnvProduction : Bool := false

/-- Model of JavaScript `String.prototype.startsWith`: does `pat` occur as
a leading segment of `s`? -/
def leadingMatches : List Char → List Char → Bool
  | [], _ => true
  | _ :: _, [] => false
  | p :: ps, c :: cs => (p = c) && leadingMatches ps cs

/-- JavaScript `s.startsWith(pat)`. -/
def jsStartsWith (s pat : String) : Bool := leadingMatches pat.data s.data

/-- Model of JavaScript `String.prototype.split` with a one-character
separator, on character lists. -/
def splitCharList (sep : Char) : List Char → List (List Char)
  | [] => [[]]
  | c :: cs =>
    let rest := splitCharList sep cs
    if c = sep then [] :: rest
    else
      match rest with
      | [] => [[c]]
      | g :: gs => (c :: g) :: gs

/-- JavaScript `s.split(sep)` for a one-character separator. -/
def jsSplit (s : String) (sep : Char) : List String :=
  (splitCharList sep s.data).map (fun cs => String.mk cs)

/-- `getSupportedMethods`: the keys of the handler table
(`Object.keys(this.handlers)`). -/
def ARCServer.getSupportedMethods (s : ARCServer) : List String :=
  s.handlers.map (fun h => h.1)

/-- `createErrorResponse(request, error)`: builds an error envelope. The
source computes `id` as `request?.id || 'error'` and `targetAgent` as
`request?.requestAgent || 'unknown'` (JS truthiness), and copies
`request?.traceId` through. -/
def ARCServer.createErrorResponse (s : ARCServer) (request : Option RawRequest)
    (error : ErrorObject) : ARCResponse :=
  { arc := "1.0"
    id :=
      match request with
      | some r =>
        match r.id with
        | some v => if v.truthy then v else JsValue.str "error"
        | none => JsValue.str "error"
      | none => JsValue.str "error"
    responseAgent := s.agentId
    targetAgent :=
      match request with
      | some r =>
        match r.requestAgent with
        | some a => if a ≠ "" then a else "unknown"
        | none => "unknown"
      | none => "unknown"
    traceId := request.bind (fun r => r.traceId)
    result := JsValue.null
    error := some error }

/-- `createErrorFromException(error)`: a thrown object carrying both a
`code` and a `message` key is passed through as `{code, message,
details}`; an `Error` instance maps to code `-32603` with its message (or
"Internal server error" when falsy) and a `{name, stack}` detail (`stack`
is `undefined` in production); everything else maps to code `-32603` with
`String(error)` (or "Internal server error" when falsy). -/
def ARCServer.createErrorFromException (s : ARCServer) (e : ThrownValue) : ErrorObject :=
  match e with
  | .object (some c) (some m) details _ _ _ =>
    { code := c, message := m, details := details }
  | .object _ message _ isErrorInstance name stack =>
    if isErrorInstance then
      { code := -32603
        message := if message.getD "" ≠ "" then message.getD "" else "Internal server error"
        details := some [("name", JsValue.str name),
          ("stack",
            if s.nodeEnvProduction then JsValue.undefined
            else match stack with
              | some st => JsValue.str st
              | none => JsValue.undefined)] }
    else
      { code := -32603
        message :=
          if e.stringCoercion ≠ "" then e.stringCoercion else "Internal server error"
        details := none }
  | .primitive _ =>
    { code := -32603
      message :=
        if e.stringCoercion ≠ "" then e.stringCoercion else "Internal server error"
      details := none }

/-- The outcome of the authentication block of `handleRequest` (source
lines 261-299): either an early `-44003` error response or the
`authContext` handed to the handler, together with the token that was
passed to the `authValidator` (if any validation happened at all). -/
structure AuthOutcome where
  result : Except ErrorObject AuthContext
  validatedToken : Option String

/-- The token taken from a bearer `Authorization` header:
`authHeader.split(' ')[1]` in the source. -/
def bearerToken (header : String) : String := (jsSplit header ' ').getD 1 ""

/-- The authentication block of `handleRequest`: the whole block runs only
when the `Authorization` header is present and starts with "Bearer "; the
token is validated only when `enableAuth` is set and a validator exists;
the scope check runs only for authenticated results whose method has a
required-scope entry, and fails with `-44003` when some required scope is
not granted. -/
def ARCServer.checkAuth (s : ARCServer) (method : String)
    (authHeader : Option String) : AuthOutcome :=
  match authHeader with
  | none => { result := .ok { authenticated := false }, validatedToken := none }
  | some header =>
    if jsStartsWith header "Bearer " then
      let token := bearerToken header
      if s.enableAuth then
        match s.authValidator with
        | some validator =>
          let authResult := validator token
          let authContext : AuthContext :=
            { authenticated := authResult.authenticated
              token := some token
              scopes := authResult.scopes
              subject := authResult.subject }
          if authResult.authenticated then
            match List.lookup method s.requiredScopes with
            | some required =>
              if required.all (fun scope =>
                  match authResult.scopes with
                  | some granted => granted.contains scope
                  | none => false) then
                { result := .ok authContext, validatedToken := some token }
              else
                { result := .error
                    { code := -44003
                      message := "Insufficient OAuth2 scope"
                      details := some [("requiredScopes", JsValue.strList required),
                        ("providedScopes",
                          match authResult.scopes with
                          | some granted => JsValue.strList granted
                          | none => JsValue.undefined)] }
                  validatedToken := some token }
            | none => { result := .ok authContext, validatedToken := some token }
          else
            { result := .ok authContext, validatedToken := some token }
        | none =>
          { result := .ok { authenticated := false, token := some token }
            validatedToken := none }
      else
        { result := .ok { authenticated := false, token := some token }
          validatedToken := none }
    else
      { result := .ok { authenticated := false }, validatedToken := none }

/-- The `RequestContext` literal built by `handleRequest` before invoking
the handler. -/
def buildContext (req : RawRequest) (id : JsValue)
    (method requestAgent targetAgent : String) (auth : AuthContext) : RequestContext :=
  { request_id := id
    method := method
    request_agent := requestAgent
    target_agent := targetAgent
    trace_id := req.traceId
    raw_request := req
    auth := auth }

/-- What one call of `handleRequest` did: the response it returned, the
handler invocation it performed (with the context it passed), if any, and
the token it handed to the `authValidator`, if any. -/
structure HandleResult where
  response : ARCResponse
  invoked : Option RequestContext
  validatedToken : Option String

/-- Shared shape of the dispatcher's own error returns (no handler
invoked, no token validated). -/
def ARCServer.dispatchError (s : ARCServer) (request : Option RawRequest)
    (error : ErrorObject) : HandleResult :=
  { response := s.createErrorResponse request error
    invoked := none
    validatedToken := none }

/-- The `-32600` error for a missing required envelope field (the source
loops over the six required field names and reports the first absent
one). -/
def missingFieldError (field : String) : ErrorObject :=
  { code := -32600
    message := "Invalid request: Missing required field \'" ++ field ++ "\'" }

/-- `handleRequest(requestData, authHeader)` (source lines 187-340):
null-object guard, required-field check in source order, protocol-version
check, target-agent check, method-registration check, authentication
block, handler invocation, response construction; a thrown handler value
is caught and turned into an error envelope via
`createErrorFromException`. On the success path `traceId` is attached
only when truthy (`if (traceId)`). -/
def ARCServer.handleRequest (s : ARCServer) (requestData : Option RawRequest)
    (authHeader : Option String) : HandleResult :=
  match requestData with
  | none =>
    s.dispatchError none
      { code := -32600, message := "Invalid request: Request must be a JSON object" }
  | some req =>
    match req.arc, req.id, req.method, req.requestAgent, req.targetAgent, req.params with
    | none, _, _, _, _, _ =>
      s.dispatchError (some req) (missingFieldError "arc")
    | some _, none, _, _, _, _ =>
      s.dispatchError (some req) (missingFieldError "id")
    | some _, some _, none, _, _, _ =>
      s.dispatchError (some req) (missingFieldError "method")
    | some _, some _, some _, none, _, _ =>
      s.dispatchError (some req) (missingFieldError "requestAgent")
    | some _, some _, some _, some _, none, _ =>
      s.dispatchError (some req) (missingFieldError "targetAgent")
    | some _, some _, some _, some _, some _, none =>
      s.dispatchError (some req) (missingFieldError "params")
    | some arc, some id, some method, some requestAgent, some targetAgent, some params =>
      if arc ≠ JsValue.str "1.0" then
        s.dispatchError (some req)
          { code := -45001
            message := "Invalid ARC version: " ++ arc.toStr
            details := some [("supportedVersion", JsValue.str "1.0")] }
      else if targetAgent ≠ s.agentId then
        s.dispatchError (some req)
          { code := -41001
            message := "Agent not found: " ++ targetAgent
            details := some [("requestedAgent", JsValue.str targetAgent),
              ("currentAgent", JsValue.str s.agentId)] }
      else
        match List.lookup method s.handlers with
        | none =>
          s.dispatchError (some req)
            { code := -32601
              message := "Method not found: " ++ method
              details := some [("supportedMethods", JsValue.strList s.getSupportedMethods)] }
        | some handler =>
          let a := s.checkAuth method authHeader
          match a.result with
          | .error e =>
            { response := s.createErrorResponse (some req) e
              invoked := none
              validatedToken := a.validatedToken }
          | .ok authContext =>
            let context := buildContext req id method requestAgent targetAgent authContext
            match handler params context with
            | .ok result =>
              { response :=
                  { arc := "1.0"
                    id := id
                    responseAgent := s.agentId
                    targetAgent := requestAgent
                    traceId :=
                      match req.traceId with
                      | some t => if t ≠ "" then some t else none
                      | none => none
                    result := result
                    error := none }
                invoked := some context
                validatedToken := a.validatedToken }
            | .throws e =>
              { response := s.createErrorResponse (some req) (s.createErrorFromException e)
                invoked := some context
                validatedToken := a.validatedToken }

/-- A server-sent-events frame, embedded structurally (the SSE text
framing and the JSON serialization of the `data:` payload are
presentation, modelled by the constructor carrying the serialized
fields). `stream` is a partial frame (`event: stream`), `done` the
terminal frame (`event: done`, carrying a chat status and `done: true`),
`errorEvent` an error frame (`event: error`). -/
inductive SSEFrame where
  | stream (chatId : String) (messagePart : JsValue)
  | done (chatId : String) (status : String) (doneFlag : Bool)
  | errorEvent (chatId : String) (error : ErrorObject)
deriving DecidableEq

/-- The SSE `event:` name of a frame. -/
def SSEFrame.eventName : SSEFrame → String
  | .stream _ _ => "stream"
  | .done _ _ _ => "done"
  | .errorEvent _ _ => "error"

/-- How a finite run of the producer generator ends: normal completion,
or a raise (after having yielded its fragments). -/
inductive ProducerEnd where
  | completed
  | raised (e : ThrownValue)

/-- A finite run of the message-part producer driven by
`createSSEGenerator`: the fragments it yielded, and how it ended. -/
structure Producer where
  fragments : List JsValue
  ending : ProducerEnd

/-- `createSSEGenerator(chatId, messageGenerator)` (source lines 363-399):
one `stream` frame per fragment in producer order, then one terminal
`done` frame with status `ChatStatus.ACTIVE`; if the producer raises, one
`error` frame carrying `createErrorFromException` of the raised value is
emitted, followed by the terminal `done` frame that closes the stream. -/
def ARCServer.createSSEGenerator (s : ARCServer) (chatId : String)
    (producer : Producer) : List SSEFrame :=
  match producer.ending with
  | .completed =>
    producer.fragments.map (fun part => SSEFrame.stream chatId part)
      ++ [SSEFrame.done chatId "ACTIVE" true]
  | .raised e =>
    producer.fragments.map (fun part => SSEFrame.stream chatId part)
      ++ [SSEFrame.errorEvent chatId (s.createErrorFromException e),
          SSEFrame.done chatId "ACTIVE" true]

/-- `createChatStream(chatId, messageGenerator)` just delegates to
`createSSEGenerator`. -/
def ARCServer.createChatStream (s : ARCServer) (chatId : String)
    (producer : Producer) : List SSEFrame :=
  s.createSSEGenerator chatId producer

namespace ARCClient

/-- A raw response object as the client receives it: every key may be
absent (`validateResponse` checks presence with `in`); `result` and
`error` are kept fully dynamic, `some JsValue.null` embedding a key that
is present with the value `null`. -/
structure RawResponse where
  arc : Option JsValue := none
  id : Option JsValue := none
  responseAgent : Option String := none
  targetAgent : Option String := none
  result : Option JsValue := none
  error : Option JsValue := none
  traceId : Option String := none
deriving DecidableEq

/-- `ARCClient.validateResponse(response, requestId)` (client source lines
286-309): checks the four required fields in source order, the protocol
version, identifier equality, and finally throws "Response must contain
either result or error" when neither the `result` nor the `error` key is
present. `Except.error` embeds a throw, `Except.ok ()` a normal return. -/
def validateResponse (response : RawResponse) (requestId : JsValue) :
    Except String Unit :=
  if response.arc.isNone then
    .error "Missing required field in response: arc"
  else if response.id.isNone then
    .error "Missing required field in response: id"
  else if response.responseAgent.isNone then
    .error "Missing required field in response: responseAgent"
  else if response.targetAgent.isNone then
    .error "Missing required field in response: targetAgent"
  else if response.arc ≠ some (JsValue.str "1.0") then
    .error ("Unsupported ARC version: "
      ++ (match response.arc with
          | some v => v.toStr
          | none => "undefined"))
  else if response.id ≠ some requestId then
    .error "Response ID does not match request ID"
  else if response.result.isNone ∧ response.error.isNone then
    .error "Response must contain either result or error"
  else
    .ok ()

/-- The event-consumption loop of `ARCClient.handleStreamingRequest`
(client source lines 210-241), at the level of the parsed SSE events it
observes in transport order: each event's data is yielded, and upon the
`done` event the generator returns, yielding nothing further even when
more events follow on the transport. -/
def handleStreamingRequest : List SSEFrame → List SSEFrame
  | [] => []
  | frame :: rest =>
    frame :: (if frame.eventName = "done" then [] else handleStreamingRequest rest)

end ARCClient

/-! ### Error-code namespaces of the protocol specification

The specification (`specification/ARC-Protocol-Specification.md`,
"Standard Error Codes") partitions ARC-specific codes into contiguous
blocks: agent errors `-41000..-41099`, task errors `-42000..-42099`, chat
errors `-43000..-43099`, security errors `-44000..-44099`, protocol
errors `-45000..-45099`. -/

/-- Membership in the agent-error namespace (-41000 to -41099). -/
def isAgentErrorCode (code : Int) : Bool := decide (-41099 ≤ code ∧ code ≤ -41000)

/-- Membership in the task-error namespace (-42000 to -42099). -/
def isTaskErrorCode (code : Int) : Bool := decide (-42099 ≤ code ∧ code ≤ -42000)

/-- Membership in the chat-error namespace (-43000 to -43099). -/
def isChatErrorCode (code : Int) : Bool := decide (-43099 ≤ code ∧ code ≤ -43000)

/-- Membership in the security-error namespace (-44000 to -44099). -/
def isSecurityErrorCode (code : Int) : Bool := decide (-44099 ≤ code ∧ code ≤ -44000)

/-- Membership in the protocol-error namespace (-45000 to -45099). -/
def isProtocolErrorCode (code : Int) : Bool := decide (-45099 ≤ code ∧ code ≤ -45000)

/-- Modelled from the spec: the agent-unavailable codes of the taxonomy.
The classifier they feed is not among the repository files under `src`;
within the documented agent-error namespace, the codes reporting that the
target agent cannot currently serve are `-41002` (agent not available)
and `-41011` (agent capacity exceeded). -/
def isAgentUnavailableCode (code : Int) : Bool :=
  code == -41002 || code == -41011

/-- Modelled from the spec: the transport-level codes of the taxonomy.
Among the documented codes, transport-level failures surface as `-41003`
(agent unreachable) and `-41006` (agent timeout). -/
def isTransportLevelCode (code : Int) : Bool :=
  code == -41003 || code == -41006

/-- Modelled from the spec: the Error Taxonomy's retryability classifier
`isRetryable(code) -> bool` (spec section 4.2), which is not present in
the repository files under `src`. Faithful to the spec's words:
transport-level and agent-unavailable codes are retryable; business-logic
codes are not (a code is retryable exactly when it is transport-level or
agent-unavailable). -/
def isRetryable (code : Int) : Bool :=
  isTransportLevelCode code || isAgentUnavailableCode code

/-! ### Basic facts about the dispatcher's envelope constructors -/

@[simp]
lemma ARCServer.dispatchError_response (s : ARCServer) (r : Option RawRequest)
    (e : ErrorObject) : (s.dispatchError r e).response = s.createErrorResponse r e := rfl

@[simp]
lemma ARCServer.dispatchError_invoked (s : ARCServer) (r : Option RawRequest)
    (e : ErrorObject) : (s.dispatchError r e).invoked = none := rfl

@[simp]
lemma ARCServer.dispatchError_validatedToken (s : ARCServer) (r : Option RawRequest)
    (e : ErrorObject) : (s.dispatchError r e).validatedToken = none := rfl

@[simp]
lemma ARCServer.createErrorResponse_arc (s : ARCServer) (r : Option RawRequest)
    (e : ErrorObject) : (s.createErrorResponse r e).arc = "1.0" := by
  cases r <;> rfl

@[simp]
lemma ARCServer.createErrorResponse_responseAgent (s : ARCServer) (r : Option RawRequest)
    (e : ErrorObject) : (s.createErrorResponse r e).responseAgent = s.agentId := by
  cases r <;> rfl

@[simp]
lemma ARCServer.createErrorResponse_result (s : ARCServer) (r : Option RawRequest)
    (e : ErrorObject) : (s.createErrorResponse r e).result = JsValue.null := by
  cases r <;> rfl

@[simp]
lemma ARCServer.createErrorResponse_error (s : ARCServer) (r : Option RawRequest)
    (e : ErrorObject) : (s.createErrorResponse r e).error = some e := by
  cases r <;> rfl

@[simp]
lemma ARCServer.createErrorResponse_traceId (s : ARCServer) (req : RawRequest)
    (e : ErrorObject) : (s.createErrorResponse (some req) e).traceId = req.traceId := rfl

lemma ARCServer.createErrorResponse_id_of_truthy (s : ARCServer) (req : RawRequest)
    (e : ErrorObject) (idv : JsValue) (hid : req.id = some idv)
    (ht : idv.truthy = true) : (s.createErrorResponse (some req) e).id = idv := by
  simp [ARCServer.createErrorResponse, hid, ht]

/-- Case analysis on one `handleRequest` call for a present request
object: the call either returned one of the dispatcher's own error
envelopes (codes `-32600`, `-45001`, `-41001`, `-32601`; no handler
invoked, no token validated), or the authentication block's `-44003`
error, or it invoked the registered handler, whose outcome (a returned
value or a thrown value) determines the envelope. -/
lemma handleRequest_cases (s : ARCServer) (req : RawRequest) (ah : Option String) :
    (∃ e, (e.code = -32600 ∨ e.code = -45001 ∨ e.code = -41001 ∨ e.code = -32601) ∧
      s.handleRequest (some req) ah = s.dispatchError (some req) e)
    ∨ (∃ method e,
        req.method = some method ∧
        (s.checkAuth method ah).result = Except.error e ∧
        s.handleRequest (some req) ah =
          { response := s.createErrorResponse (some req) e
            invoked := none
            validatedToken := (s.checkAuth method ah).validatedToken })
    ∨ (∃ idv method ra params hdl actx v,
        req.id = some idv ∧ req.method = some method ∧ req.requestAgent = some ra ∧
        req.targetAgent = some s.agentId ∧ req.params = some params ∧
        List.lookup method s.handlers = some hdl ∧
        (s.checkAuth method ah).result = Except.ok actx ∧
        hdl params (buildContext req idv method ra s.agentId actx) = HandlerOutcome.ok v ∧
        s.handleRequest (some req) ah =
          { response :=
              { arc := "1.0", id := idv, responseAgent := s.agentId, targetAgent := ra
                traceId :=
                  match req.traceId with
                  | some t => if t ≠ "" then some t else none
                  | none => none
                result := v, error := none }
            invoked := some (buildContext req idv method ra s.agentId actx)
            validatedToken := (s.checkAuth method ah).validatedToken })
    ∨ (∃ idv method ra params hdl actx ex,
        req.id = some idv ∧ req.method = some method ∧ req.requestAgent = some ra ∧
        req.targetAgent = some s.agentId ∧ req.params = some params ∧
        List.lookup method s.handlers = some hdl ∧
        (s.checkAuth method ah).result = Except.ok actx ∧
        hdl params (buildContext req idv method ra s.agentId actx) = HandlerOutcome.throws ex ∧
        s.handleRequest (some req) ah =
          { response := s.createErrorResponse (some req) (s.createErrorFromException ex)
            invoked := some (buildContext req idv method ra s.agentId actx)
            validatedToken := (s.checkAuth method ah).validatedToken }) := by
  cases harc : req.arc with
  | none =>
    refine Or.inl ⟨missingFieldError "arc", Or.inl rfl, ?_⟩
    simp [ARCServer.handleRequest, harc]
  | some arc =>
  cases hid : req.id with
  | none =>
    refine Or.inl ⟨missingFieldError "id", Or.inl rfl, ?_⟩
    simp [ARCServer.handleRequest, harc, hid]
  | some idv =>
  cases hm : req.method with
  | none =>
    refine Or.inl ⟨missingFieldError "method", Or.inl rfl, ?_⟩
    simp [ARCServer.handleRequest, harc, hid, hm]
  | some method =>
  cases hra : req.requestAgent with
  | none =>
    refine Or.inl ⟨missingFieldError "requestAgent", Or.inl rfl, ?_⟩
    simp [ARCServer.handleRequest, harc, hid, hm, hra]
  | some ra =>
  cases hta : req.targetAgent with
  | none =>
    refine Or.inl ⟨missingFieldError "targetAgent", Or.inl rfl, ?_⟩
    simp [ARCServer.handleRequest, harc, hid, hm, hra, hta]
  | some ta =>
  cases hp : req.params with
  | none =>
    refine Or.inl ⟨missingFieldError "params", Or.inl rfl, ?_⟩
    simp [ARCServer.handleRequest, harc, hid, hm, hra, hta, hp]
  | some params =>
  by_cases hv : arc = JsValue.str "1.0"
  case neg =>
    refine Or.inl ⟨⟨-45001, "Invalid ARC version: " ++ arc.toStr,
      some [("supportedVersion", JsValue.str "1.0")]⟩, Or.inr (Or.inl rfl), ?_⟩
    simp [ARCServer.handleRequest, harc, hid, hm, hra, hta, hp, hv]
  case pos =>
  by_cases htgt : ta = s.agentId
  case neg =>
    refine Or.inl ⟨⟨-41001, "Agent not found: " ++ ta,
      some [("requestedAgent", JsValue.str ta), ("currentAgent", JsValue.str s.agentId)]⟩,
      Or.inr (Or.inr (Or.inl rfl)), ?_⟩
    simp [ARCServer.handleRequest, harc, hid, hm, hra, hta, hp, hv, htgt]
  case pos =>
  subst htgt
  cases hh : List.lookup method s.handlers with
  | none =>
    refine Or.inl ⟨⟨-32601, "Method not found: " ++ method,
      some [("supportedMethods", JsValue.strList s.getSupportedMethods)]⟩,
      Or.inr (Or.inr (Or.inr rfl)), ?_⟩
    simp [ARCServer.handleRequest, harc, hid, hm, hra, hta, hp, hv, hh]
  | some hdl =>
  cases hca : (s.checkAuth method ah).result with
  | error e =>
    refine Or.inr (Or.inl ⟨method, e, rfl, hca, ?_⟩)
    simp [ARCServer.handleRequest, harc, hid, hm, hra, hta, hp, hv, hh, hca]
  | ok actx =>
  cases ho : hdl params (buildContext req idv method ra s.agentId actx) with
  | ok v =>
    refine Or.inr (Or.inr (Or.inl ⟨idv, method, ra, params, hdl, actx, v,
      rfl, rfl, rfl, rfl, rfl, hh, hca, ho, ?_⟩))
    simp [ARCServer.handleRequest, harc, hid, hm, hra, hta, hp, hv, hh, hca, ho]
  | throws ex =>
    refine Or.inr (Or.inr (Or.inr ⟨idv, method, ra, params, hdl, actx, ex,
      rfl, rfl, rfl, rfl, rfl, hh, hca, ho, ?_⟩))
    simp [ARCServer.handleRequest, harc, hid, hm, hra, hta, hp, hv, hh, hca, ho]

/-! ### Claim C1 -/

/-- A response object in which both the `result` and the `error` key are
present. -/
def bothPresentResponse : ARCClient.RawResponse :=
  { arc := some (JsValue.str "1.0")
    id := some (JsValue.str "req-1")
    responseAgent := some "agent-srv"
    targetAgent := some "agent-cli"
    result := some (JsValue.str "ok")
    error := some (JsValue.str "boom") }

/-- C1 counterexample: `ARCClient.validateResponse` accepts (returns
normally on) a response object in which both `result` and `error` are
present, whereas the claim requires it to reject such a response. -/
theorem C1_counterexample :
    bothPresentResponse.result.isSome = true ∧
    bothPresentResponse.error.isSome = true ∧
    ARCClient.validateResponse bothPresentResponse (JsValue.str "req-1") = Except.ok () :=
  ⟨rfl, rfl, rfl⟩

/-- C1 (amended): for a response carrying the supported version, the
matching identifier and the other required fields, `validateResponse`
accepts exactly when at least one of the `result`/`error` keys is
present: it rejects a response with neither, and accepts one with either
or both. -/
theorem C1_theorem (r : ARCClient.RawResponse) (requestId : JsValue)
    {rag tag : String}
    (harc : r.arc = some (JsValue.str "1.0"))
    (hid : r.id = some requestId)
    (hra : r.responseAgent = some rag)
    (hta : r.targetAgent = some tag) :
    (ARCClient.validateResponse r requestId = Except.ok ())
      ↔ (r.result.isSome = true ∨ r.error.isSome = true) := by
  unfold ARCClient.validateResponse
  rw [harc, hid, hra, hta]
  rcases hres : r.result with _ | v <;> rcases herr : r.error with _ | w <;> simp

/-- C1 witness: a response carrying only `result` is accepted via
`C1_theorem`. -/
theorem C1_witness :
    ARCClient.validateResponse
      { arc := some (JsValue.str "1.0"), id := some (JsValue.str "w1"),
        responseAgent := some "a", targetAgent := some "b",
        result := some JsValue.null } (JsValue.str "w1") = Except.ok () :=
  (C1_theorem _ _ rfl rfl rfl rfl).mpr (Or.inl rfl)

/-! ### Claim C2 -/

/-- C2 (amended): for every request that passes the required-field and
version checks and whose `id` is truthy, the response envelope returned
by `handleRequest` carries the request's `id` on the success path and on
every error path. (For a falsy `id` — `0`, the empty string — the error
paths substitute the literal string "error", see `C2_counterexample`.) -/
theorem C2_theorem (s : ARCServer) (req : RawRequest) (authHeader : Option String)
    (idv : JsValue) {method requestAgent targetAgent : String} {params : JsValue}
    (harc : req.arc = some (JsValue.str "1.0"))
    (hid : req.id = some idv)
    (hm : req.method = some method)
    (hra : req.requestAgent = some requestAgent)
    (hta : req.targetAgent = some targetAgent)
    (hp : req.params = some params)
    (htruthy : idv.truthy = true) :
    (s.handleRequest (some req) authHeader).response.id = idv := by
  rcases handleRequest_cases s req authHeader with
      ⟨e, _, hcase⟩ | ⟨m, e, _, _, hcase⟩ |
      ⟨idv', m, ra, p, hdl, actx, v, hid', _, _, _, _, _, _, _, hcase⟩ |
      ⟨idv', m, ra, p, hdl, actx, ex, hid', _, _, _, _, _, _, _, hcase⟩
  · rw [hcase]
    simpa using s.createErrorResponse_id_of_truthy req e idv hid htruthy
  · rw [hcase]
    exact s.createErrorResponse_id_of_truthy req e idv hid htruthy
  · rw [hcase]
    rw [hid] at hid'
    exact (Option.some_inj.mp hid').symm ▸ rfl
  · rw [hcase]
    rw [hid] at hid'
    exact s.createErrorResponse_id_of_truthy req _ idv hid htruthy

/-- The server of the C2 fixtures. -/
def c2Server : ARCServer := { agentId := "agent-1" }

/-- A valid request with the truthy id "42" whose target does not match
the local agent (an error path). -/
def c2Req : RawRequest :=
  { arc := some (JsValue.str "1.0"), id := some (JsValue.str "42"),
    method := some "task.create", requestAgent := some "caller-1",
    targetAgent := some "agent-2", params := some JsValue.null }

/-- C2 witness: the amended correlation invariant at a concrete error-path
input via `C2_theorem`. -/
theorem C2_witness :
    (JsValue.str "42").truthy = true ∧
    (c2Server.handleRequest (some c2Req) none).response.id = JsValue.str "42" :=
  ⟨by decide, C2_theorem c2Server c2Req none (JsValue.str "42")
    rfl rfl rfl rfl rfl rfl (by decide)⟩

/-- A valid request (all required fields present, version "1.0") whose id
is the falsy number `0`. -/
def c2FalsyReq : RawRequest :=
  { arc := some (JsValue.str "1.0"), id := some (JsValue.num 0),
    method := some "task.create", requestAgent := some "caller-1",
    targetAgent := some "agent-2", params := some JsValue.null }

/-- C2 counterexample: a valid request whose id is the falsy number `0`
takes an error path (target mismatch) and the response carries the
literal string "error" instead of the request's id `0` — the claim's
correlation invariant fails. -/
theorem C2_counterexample :
    c2FalsyReq.id = some (JsValue.num 0) ∧
    (c2Server.handleRequest (some c2FalsyReq) none).response.id = JsValue.str "error" ∧
    (c2Server.handleRequest (some c2FalsyReq) none).response.id ≠ JsValue.num 0 := by
  refine ⟨rfl, by decide, by decide⟩

/-! ### Claim C3 -/

/-- C3 (amended): with authorization enabled and an authenticated
credential, for a registered method whose required scope set is not
covered by the granted set, `handleRequest` returns the security-class
error `-44003` whose details carry the required set under the key
`requiredScopes` (not `required`) and the granted set under the key
`providedScopes` (not `granted`), and the handler is not invoked. -/
theorem C3_theorem (s : ARCServer) (req : RawRequest) (header : String)
    {idv : JsValue} {method ra : String} {params : JsValue}
    (validator : String → AuthResult) (required granted : List String)
    {subj : Option String} {hdl : MethodHandler}
    (harc : req.arc = some (JsValue.str "1.0"))
    (hid : req.id = some idv)
    (hm : req.method = some method)
    (hra : req.requestAgent = some ra)
    (hta : req.targetAgent = some s.agentId)
    (hp : req.params = some params)
    (hh : List.lookup method s.handlers = some hdl)
    (henable : s.enableAuth = true)
    (hval : s.authValidator = some validator)
    (hbearer : jsStartsWith header "Bearer " = true)
    (hres : validator (bearerToken header) =
      { authenticated := true, scopes := some granted, subject := subj })
    (hreq : List.lookup method s.requiredScopes = some required)
    (hmiss : required.all (fun scope => granted.contains scope) = false) :
    (s.handleRequest (some req) (some header)).response.error =
      some { code := -44003
             message := "Insufficient OAuth2 scope"
             details := some [("requiredScopes", JsValue.strList required),
                              ("providedScopes", JsValue.strList granted)] }
    ∧ (s.handleRequest (some req) (some header)).invoked = none
    ∧ isSecurityErrorCode (-44003) = true := by
  have hmiss' : ¬ ∀ x ∈ required, x ∈ granted := by
    intro hall
    have hx : required.all (fun scope => granted.contains scope) = true := by
      rw [List.all_eq_true]
      intro x hx
      simpa using hall x hx
    rw [hx] at hmiss
    exact absurd hmiss (by decide)
  have hca : (s.checkAuth method (some header)).result =
      Except.error
        { code := -44003
          message := "Insufficient OAuth2 scope"
          details := some [("requiredScopes", JsValue.strList required),
                           ("providedScopes", JsValue.strList granted)] } := by
    simp [ARCServer.checkAuth, hbearer, henable, hval, hres, hreq, hmiss']
  have hmain : s.handleRequest (some req) (some header) =
      { response := s.createErrorResponse (some req)
          { code := -44003
            message := "Insufficient OAuth2 scope"
            details := some [("requiredScopes", JsValue.strList required),
                             ("providedScopes", JsValue.strList granted)] }
        invoked := none
        validatedToken := (s.checkAuth method (some header)).validatedToken } := by
    simp [ARCServer.handleRequest, harc, hid, hm, hra, hta, hp, hh, hca]
  rw [hmain]
  exact ⟨by simp, rfl, by decide⟩

/-- The server of the C3 fixtures: authorization enabled, the method
requires scope "x", the validator grants only "y". -/
def c3Server : ARCServer :=
  { agentId := "agent-1"
    enableAuth := true
    handlers := [("task.create", fun _ _ => HandlerOutcome.ok (JsValue.str "r"))]
    requiredScopes := [("task.create", ["x"])]
    authValidator := some (fun _ => { authenticated := true, scopes := some ["y"] }) }

/-- A valid request for the scope-protected method of `c3Server`. -/
def c3Req : RawRequest :=
  { arc := some (JsValue.str "1.0"), id := some (JsValue.str "1"),
    method := some "task.create", requestAgent := some "caller-1",
    targetAgent := some "agent-1", params := some JsValue.null }

/-- C3 counterexample: in the concrete scenario of the claim (method
requires "x", credential grants {"y"}) the returned `-44003` error's
details carry the keys `requiredScopes`/`providedScopes`; no entry exists
under the claimed keys `required` and `granted`. -/
theorem C3_counterexample :
    (c3Server.handleRequest (some c3Req) (some "Bearer tok")).response.error =
      some { code := -44003
             message := "Insufficient OAuth2 scope"
             details := some [("requiredScopes", JsValue.strList ["x"]),
                              ("providedScopes", JsValue.strList ["y"])] }
    ∧ ((c3Server.handleRequest (some c3Req) (some "Bearer tok")).response.error.bind
        (fun e => e.details.bind (fun d => List.lookup "required" d))) = none
    ∧ ((c3Server.handleRequest (some c3Req) (some "Bearer tok")).response.error.bind
        (fun e => e.details.bind (fun d => List.lookup "granted" d))) = none := by
  refine ⟨by decide, by decide, by decide⟩

/-- C3 witness: the amended statement at the concrete scenario of the
claim, via `C3_theorem`. -/
theorem C3_witness :
    (c3Server.handleRequest (some c3Req) (some "Bearer tok")).response.error =
      some { code := -44003
             message := "Insufficient OAuth2 scope"
             details := some [("requiredScopes", JsValue.strList ["x"]),
                              ("providedScopes", JsValue.strList ["y"])] }
    ∧ (c3Server.handleRequest (some c3Req) (some "Bearer tok")).invoked = none
    ∧ isSecurityErrorCode (-44003) = true :=
  C3_theorem c3Server c3Req "Bearer tok"
    (fun _ => { authenticated := true, scopes := some ["y"] }) ["x"] ["y"]
    rfl rfl rfl rfl rfl rfl rfl rfl rfl (by decide) rfl rfl (by decide)

/-! ### Claim C4 -/

/-- The client's decoding loop stops at the first `done` frame: frames
before it are yielded in order, the `done` frame itself is yielded, and
nothing after it is consumed. -/
lemma handleStreaming_stops (pre : List SSEFrame) (d : SSEFrame) (extra : List SSEFrame)
    (hpre : ∀ f ∈ pre, f.eventName ≠ "done") (hd : d.eventName = "done") :
    ARCClient.handleStreamingRequest (pre ++ d :: extra) = pre ++ [d] := by
  induction pre with
  | nil => simp [ARCClient.handleStreamingRequest, hd]
  | cons f fs ih =>
    have hf : f.eventName ≠ "done" := hpre f (by simp)
    simp only [List.cons_append, ARCClient.handleStreamingRequest, if_neg hf,
      List.append_eq]
    rw [ih (fun g hg => hpre g (by simp [hg]))]

/-- C4: for a producer that yields `N` fragments and completes without
raising, `createSSEGenerator` emits exactly the `N` partial frames in
producer order followed by exactly one terminal `done` frame and nothing
after it, and the client's decoding loop, fed those frames plus any
further transport data, yields exactly those frames and nothing from the
extra data. -/
theorem C4_theorem (s : ARCServer) (chatId : String) (frags : List JsValue)
    (extra : List SSEFrame) :
    (s.createSSEGenerator chatId { fragments := frags, ending := .completed } =
      frags.map (fun part => SSEFrame.stream chatId part)
        ++ [SSEFrame.done chatId "ACTIVE" true])
    ∧ (List.countP (fun f => f.eventName == "stream")
        (s.createSSEGenerator chatId { fragments := frags, ending := .completed })
        = frags.length)
    ∧ (List.countP (fun f => f.eventName == "done")
        (s.createSSEGenerator chatId { fragments := frags, ending := .completed }) = 1)
    ∧ ((s.createSSEGenerator chatId { fragments := frags, ending := .completed }).getLast?
        = some (SSEFrame.done chatId "ACTIVE" true))
    ∧ ARCClient.handleStreamingRequest
        (s.createSSEGenerator chatId { fragments := frags, ending := .completed } ++ extra)
      = s.createSSEGenerator chatId { fragments := frags, ending := .completed } := by
  have hgen : s.createSSEGenerator chatId { fragments := frags, ending := .completed } =
      frags.map (fun part => SSEFrame.stream chatId part)
        ++ [SSEFrame.done chatId "ACTIVE" true] := rfl
  refine ⟨hgen, ?_, ?_, ?_, ?_⟩
  · rw [hgen]
    induction frags with
    | nil => rfl
    | cons a l ih => simpa [SSEFrame.eventName] using ih
  · rw [hgen]
    induction frags with
    | nil => rfl
    | cons a l ih => simpa [SSEFrame.eventName] using ih
  · rw [hgen, List.getLast?_append]
    rfl
  · rw [hgen, List.append_assoc, List.singleton_append]
    exact handleStreaming_stops _ _ _
      (by intro f hf
          obtain ⟨part, _, hpart⟩ := List.mem_map.mp hf
          rw [← hpart]
          simp [SSEFrame.eventName])
      rfl

/-! ### Claim C5 -/

/-- C5: every value thrown by the invoked handler is caught and turned
into an error envelope rather than propagating: a taxonomy-shaped thrown
object (one carrying both a `code` and a `message` key) becomes the
response's error object unchanged (same code, message and details), and
any other thrown value becomes an error with the Internal code
`-32603`. -/
theorem C5_theorem (s : ARCServer) (req : RawRequest) (ah : Option String)
    {idv : JsValue} {method ra : String} {params : JsValue}
    {hdl : MethodHandler} {actx : AuthContext} (ex : ThrownValue)
    (harc : req.arc = some (JsValue.str "1.0"))
    (hid : req.id = some idv)
    (hm : req.method = some method)
    (hra : req.requestAgent = some ra)
    (hta : req.targetAgent = some s.agentId)
    (hp : req.params = some params)
    (hh : List.lookup method s.handlers = some hdl)
    (hca : (s.checkAuth method ah).result = Except.ok actx)
    (hrun : hdl params (buildContext req idv method ra s.agentId actx) =
      HandlerOutcome.throws ex) :
    (s.handleRequest (some req) ah).response.error =
      some (s.createErrorFromException ex)
    ∧ (match ex with
       | .object (some c) (some m) d _ _ _ =>
           s.createErrorFromException ex = { code := c, message := m, details := d }
       | _ => (s.createErrorFromException ex).code = -32603) := by
  constructor
  · simp [ARCServer.handleRequest, harc, hid, hm, hra, hta, hp, hh, hca, hrun]
  · cases ex with
    | object c m d ie n st =>
      cases c with
      | some cv =>
        cases m with
        | some mv => simp [ARCServer.createErrorFromException]
        | none => cases ie <;> simp [ARCServer.createErrorFromException]
      | none => cases m <;> cases ie <;> simp [ARCServer.createErrorFromException]
    | primitive str => simp [ARCServer.createErrorFromException]

/-- The taxonomy-shaped value thrown by the C5 fixture handler: a task
lifecycle error. -/
def c5Thrown : ThrownValue :=
  ThrownValue.object (some (-42002)) (some "Task already completed")
    (some [("taskId", JsValue.str "t1")]) false "" none

/-- The server of the C5 fixtures: its handler always throws
`c5Thrown`. -/
def c5Server : ARCServer :=
  { agentId := "agent-1"
    handlers := [("task.cancel", fun _ _ => HandlerOutcome.throws c5Thrown)] }

/-- A valid request for the throwing handler of `c5Server`. -/
def c5Req : RawRequest :=
  { arc := some (JsValue.str "1.0"), id := some (JsValue.str "5"),
    method := some "task.cancel", requestAgent := some "caller-1",
    targetAgent := some "agent-1", params := some JsValue.null }

/-- C5 witness: the exception contract at a concrete taxonomy-shaped
thrown value, via `C5_theorem`. -/
theorem C5_witness :
    (c5Server.handleRequest (some c5Req) none).response.error =
      some (c5Server.createErrorFromException c5Thrown)
    ∧ (match c5Thrown with
       | .object (some c) (some m) d _ _ _ =>
           c5Server.createErrorFromException c5Thrown =
             { code := c, message := m, details := d }
       | _ => (c5Server.createErrorFromException c5Thrown).code = -32603) :=
  C5_theorem c5Server c5Req none c5Thrown rfl rfl rfl rfl rfl rfl rfl rfl rfl

/-! ### Claim C6 -/

/-- C6 (amended): every request carrying a non-empty trace identifier has
it echoed unchanged in the response on the success path and on every
error path, and every request carrying no trace identifier yields a
response carrying none. (A request carrying the empty-string trace
identifier has it dropped on the success path, see
`C6_counterexample`.) -/
theorem C6_theorem (s : ARCServer) (req : RawRequest) (ah : Option String) :
    (∀ t, req.traceId = some t → t ≠ "" →
      (s.handleRequest (some req) ah).response.traceId = some t)
    ∧ (req.traceId = none → (s.handleRequest (some req) ah).response.traceId = none) := by
  rcases handleRequest_cases s req ah with
      ⟨e, _, hcase⟩ | ⟨m, e, _, _, hcase⟩ |
      ⟨idv, m, ra, p, hdl, actx, v, _, _, _, _, _, _, _, _, hcase⟩ |
      ⟨idv, m, ra, p, hdl, actx, ex, _, _, _, _, _, _, _, _, hcase⟩
  · rw [hcase]
    exact ⟨fun t ht _ => by simp [ht], fun h => by simp [h]⟩
  · rw [hcase]
    exact ⟨fun t ht _ => by simp [ht], fun h => by simp [h]⟩
  · rw [hcase]
    refine ⟨fun t ht hne => ?_, fun h => ?_⟩
    · simp [ht, hne]
    · simp [h]
  · rw [hcase]
    exact ⟨fun t ht _ => by simp [ht], fun h => by simp [h]⟩

/-- The server of the C6 fixtures. -/
def c6Server : ARCServer :=
  { agentId := "agent-1"
    handlers := [("chat.start", fun _ _ => HandlerOutcome.ok (JsValue.str "chat"))] }

/-- A valid request carrying the empty-string trace identifier, handled
successfully by `c6Server`. -/
def c6Req : RawRequest :=
  { arc := some (JsValue.str "1.0"), id := some (JsValue.str "6"),
    method := some "chat.start", requestAgent := some "caller-1",
    targetAgent := some "agent-1", params := some JsValue.null,
    traceId := some "" }

/-- C6 counterexample: a request carrying the (falsy) empty-string trace
identifier is answered on the success path by a response carrying no
trace identifier at all — the claimed unchanged echo fails. -/
theorem C6_counterexample :
    c6Req.traceId = some "" ∧
    (c6Server.handleRequest (some c6Req) none).response.traceId = none ∧
    (c6Server.handleRequest (some c6Req) none).response.error = none := by
  refine ⟨rfl, by decide, by decide⟩

/-- The C6 witness request carrying a non-empty trace identifier. -/
def c6ReqTraced : RawRequest := { c6Req with traceId := some "trace-7" }

/-- The C6 witness request carrying no trace identifier. -/
def c6ReqNoTrace : RawRequest := { c6Req with traceId := none }

/-- C6 witness: the amended trace-echo invariant at concrete inputs via
`C6_theorem`. -/
theorem C6_witness :
    (c6Server.handleRequest (some c6ReqTraced) none).response.traceId = some "trace-7"
    ∧ (c6Server.handleRequest (some c6ReqNoTrace) none).response.traceId = none :=
  ⟨(C6_theorem c6Server c6ReqTraced none).1 "trace-7" rfl (by decide),
   (C6_theorem c6Server c6ReqNoTrace none).2 rfl⟩

/-! ### Claim C7 -/

/-- C7: a valid request targeting the local agent whose method has no
registered handler is answered with the method-class error `-32601`
("Method not found") whose details carry the full list of registered
method names under `supportedMethods`, and no handler is invoked. -/
theorem C7_theorem (s : ARCServer) (req : RawRequest) (ah : Option String)
    {idv : JsValue} {method ra : String} {params : JsValue}
    (harc : req.arc = some (JsValue.str "1.0"))
    (hid : req.id = some idv)
    (hm : req.method = some method)
    (hra : req.requestAgent = some ra)
    (hta : req.targetAgent = some s.agentId)
    (hp : req.params = some params)
    (hh : List.lookup method s.handlers = none) :
    (s.handleRequest (some req) ah).response.error =
      some { code := -32601
             message := "Method not found: " ++ method
             details := some [("supportedMethods", JsValue.strList s.getSupportedMethods)] }
    ∧ (s.handleRequest (some req) ah).invoked = none := by
  constructor <;> simp [ARCServer.handleRequest, harc, hid, hm, hra, hta, hp, hh]

/-- The server of the C7 fixtures, with exactly one registered method. -/
def c7Server : ARCServer :=
  { agentId := "agent-1"
    handlers := [("task.create", fun _ _ => HandlerOutcome.ok (JsValue.str "t"))] }

/-- A valid request for the unregistered method "task.unknown". -/
def c7Req : RawRequest :=
  { arc := some (JsValue.str "1.0"), id := some (JsValue.str "7"),
    method := some "task.unknown", requestAgent := some "caller-1",
    targetAgent := some "agent-1", params := some JsValue.null }

/-- C7 witness: the method-not-found contract at the claim's concrete
scenario (unregistered method "task.unknown"), via `C7_theorem`. -/
theorem C7_witness :
    (c7Server.handleRequest (some c7Req) none).response.error =
      some { code := -32601
             message := "Method not found: " ++ "task.unknown"
             details := some [("supportedMethods",
               JsValue.strList c7Server.getSupportedMethods)] }
    ∧ (c7Server.handleRequest (some c7Req) none).invoked = none :=
  C7_theorem c7Server c7Req none rfl rfl rfl rfl rfl rfl rfl

/-! ### Claim C8 -/

/-- C8 (spec-modelled, the classifier is not among the files under
`src`): the taxonomy's classifier `isRetryable` returns `true` for every
transport-level or agent-unavailable error code and `false` for every
business-logic (task- or chat-lifecycle) error code. -/
theorem C8_theorem (code : Int) :
    ((isTransportLevelCode code || isAgentUnavailableCode code) = true →
      isRetryable code = true)
    ∧ ((isTaskErrorCode code = true ∨ isChatErrorCode code = true) →
      isRetryable code = false) := by
  constructor
  · intro h
    simpa [isRetryable] using h
  · intro h
    rcases h with h | h <;>
      simp only [isTaskErrorCode, isChatErrorCode, decide_eq_true_eq] at h <;>
      simp only [isRetryable, isTransportLevelCode, isAgentUnavailableCode,
        Bool.or_eq_false_iff, beq_eq_false_iff_ne, ne_eq] <;>
      omega

/-- C8 witness: the classifier at the transport-level code `-41003`
(agent unreachable) and at the task-lifecycle code `-42002` (task already
completed), via `C8_theorem`. -/
theorem C8_witness :
    isRetryable (-41003) = true ∧ isRetryable (-42002) = false :=
  ⟨(C8_theorem (-41003)).1 (by decide), (C8_theorem (-42002)).2 (Or.inl (by decide))⟩

/-! ### Claim C9 -/

/-- C9 (amended): without a bearer `Authorization` header no token is
ever handed to the validator and the dispatcher itself never produces the
insufficient-scope error: any returned `-44003` error can only be a
handler-thrown value passed through (so the handler was invoked), and a
valid request for a registered method does invoke the handler with an
unauthenticated, empty auth context. -/
theorem C9_theorem (s : ARCServer) (requestData : Option RawRequest) (ah : Option String)
    (hhead : ∀ h, ah = some h → jsStartsWith h "Bearer " = false) :
    (s.handleRequest requestData ah).validatedToken = none
    ∧ (∀ e, (s.handleRequest requestData ah).response.error = some e →
        e.code = -44003 → (s.handleRequest requestData ah).invoked ≠ none)
    ∧ (∀ req idv method ra params hdl,
        requestData = some req →
        req.arc = some (JsValue.str "1.0") → req.id = some idv →
        req.method = some method → req.requestAgent = some ra →
        req.targetAgent = some s.agentId → req.params = some params →
        List.lookup method s.handlers = some hdl →
        (s.handleRequest requestData ah).invoked =
          some (buildContext req idv method ra s.agentId { authenticated := false })) := by
  have hca : ∀ method, s.checkAuth method ah =
      { result := Except.ok { authenticated := false }, validatedToken := none } := by
    intro method
    cases ah with
    | none => rfl
    | some h => simp [ARCServer.checkAuth, hhead h rfl]
  refine ⟨?_, ?_, ?_⟩
  · cases requestData with
    | none => rfl
    | some req =>
      rcases handleRequest_cases s req ah with
          ⟨e, _, hcase⟩ | ⟨m, e, _, hcaErr, hcase⟩ |
          ⟨idv, m, ra, p, hdl, actx, v, _, _, _, _, _, _, _, _, hcase⟩ |
          ⟨idv, m, ra, p, hdl, actx, ex, _, _, _, _, _, _, _, _, hcase⟩
      · rw [hcase]; rfl
      · rw [hca m] at hcaErr
        exact absurd hcaErr (by simp)
      · rw [hcase, hca m]
      · rw [hcase, hca m]
  · intro e he hc
    cases requestData with
    | none =>
      exfalso
      have : (s.handleRequest none ah).response.error =
          some { code := -32600
                 message := "Invalid request: Request must be a JSON object" } := by
        simp [ARCServer.handleRequest]
      rw [this] at he
      have he' := Option.some_inj.mp he
      rw [← he'] at hc
      exact absurd hc (by decide)
    | some req =>
      rcases handleRequest_cases s req ah with
          ⟨e0, hcode, hcase⟩ | ⟨m, e0, _, hcaErr, hcase⟩ |
          ⟨idv, m, ra, p, hdl, actx, v, _, _, _, _, _, _, _, _, hcase⟩ |
          ⟨idv, m, ra, p, hdl, actx, ex, _, _, _, _, _, _, _, _, hcase⟩
      · exfalso
        rw [hcase] at he
        simp only [ARCServer.dispatchError_response,
          ARCServer.createErrorResponse_error] at he
        have he' := Option.some_inj.mp he
        rw [← he'] at hc
        rcases hcode with h0 | h0 | h0 | h0 <;> omega
      · rw [hca m] at hcaErr
        exact absurd hcaErr (by simp)
      · exfalso
        rw [hcase] at he
        simp at he
      · rw [hcase]
        simp
  · intro req idv method ra params hdl hreq harc hid hm hra hta hp hh
    subst hreq
    cases ho : hdl params (buildContext req idv method ra s.agentId { authenticated := false }) with
    | ok v =>
      simp [ARCServer.handleRequest, harc, hid, hm, hra, hta, hp, hh, hca method, ho]
    | throws ex =>
      simp [ARCServer.handleRequest, harc, hid, hm, hra, hta, hp, hh, hca method, ho]

/-- The server of the C9 counterexample: authorization is enabled with a
validator and a scope requirement, but its handler throws a
`-44003`-shaped taxonomy error itself. -/
def c9Server : ARCServer :=
  { agentId := "agent-1"
    enableAuth := true
    requiredScopes := [("task.send", ["x"])]
    authValidator := some (fun _ => { authenticated := true, scopes := some ["x"] })
    handlers := [("task.send", fun _ _ => HandlerOutcome.throws
      (ThrownValue.object (some (-44003)) (some "Insufficient OAuth2 scope")
        none false "" none))] }

/-- A valid request for the throwing handler of `c9Server`, sent without
any `Authorization` header. -/
def c9Req : RawRequest :=
  { arc := some (JsValue.str "1.0"), id := some (JsValue.str "9"),
    method := some "task.send", requestAgent := some "caller-1",
    targetAgent := some "agent-1", params := some JsValue.null }

/-- C9 counterexample: with no `Authorization` header at all, a response
carrying the insufficient-scope code `-44003` is returned after all — the
handler threw a taxonomy-shaped `-44003` value and `handleRequest` passes
it through unchanged, so "the insufficient-scope error (-44003) is never
returned for such a request" fails as stated. -/
theorem C9_counterexample :
    (c9Server.handleRequest (some c9Req) none).response.error =
      some { code := -44003, message := "Insufficient OAuth2 scope", details := none }
    ∧ (c9Server.handleRequest (some c9Req) none).validatedToken = none := by
  refine ⟨by decide, by decide⟩

/-- The server of the C9 witness: authorization enabled with a scope
requirement and a well-behaved handler. -/
def c9WServer : ARCServer :=
  { agentId := "agent-1"
    enableAuth := true
    requiredScopes := [("task.send", ["x"])]
    authValidator := some (fun _ => { authenticated := true, scopes := some [] })
    handlers := [("task.send", fun _ _ => HandlerOutcome.ok (JsValue.str "sent"))] }

/-- C9 witness: the amended statement at a concrete request with no
`Authorization` header, via `C9_theorem`: no token validated, and the
handler runs with an unauthenticated empty auth context even though
`enableAuth` is set and the method requires a scope the credential never
proved. -/
theorem C9_witness :
    (c9WServer.handleRequest (some c9Req) none).validatedToken = none
    ∧ (c9WServer.handleRequest (some c9Req) none).invoked =
        some (buildContext c9Req (JsValue.str "9") "task.send" "caller-1" "agent-1"
          { authenticated := false }) :=
  ⟨(C9_theorem c9WServer (some c9Req) none (fun h hh => by cases hh)).1,
   (C9_theorem c9WServer (some c9Req) none (fun h hh => by cases hh)).2.2
     c9Req (JsValue.str "9") "task.send" "caller-1" JsValue.null
     (fun _ _ => HandlerOutcome.ok (JsValue.str "sent"))
     rfl rfl rfl rfl rfl rfl rfl rfl⟩

/-! ### Claim C10 -/

/-- The server of the C10 counterexample: its handler returns `null`. -/
def c10Server : ARCServer :=
  { agentId := "agent-1"
    handlers := [("task.info", fun _ _ => HandlerOutcome.ok JsValue.null)] }

/-- A valid request for the null-returning handler of `c10Server`. -/
def c10Req : RawRequest :=
  { arc := some (JsValue.str "1.0"), id := some (JsValue.str "10"),
    method := some "task.info", requestAgent := some "caller-1",
    targetAgent := some "agent-1", params := some JsValue.null }

/-- C10 counterexample: when the handler returns `null`, the success
envelope has `result = null` and `error = null` simultaneously, so
"exactly one of them is non-null" fails as stated. -/
theorem C10_counterexample :
    (c10Server.handleRequest (some c10Req) none).response.result = JsValue.null
    ∧ (c10Server.handleRequest (some c10Req) none).response.error = none := by
  refine ⟨by decide, by decide⟩

/-- C10 (amended): provided no registered handler ever returns `null`,
every response envelope `handleRequest` returns has `arc = "1.0"`,
`responseAgent` equal to the server's agent id, and exactly one of its
(always-present) `result`/`error` fields non-null. -/
theorem C10_theorem (s : ARCServer) (requestData : Option RawRequest) (ah : Option String)
    (hnn : ∀ method hdl, List.lookup method s.handlers = some hdl →
      ∀ p c v, hdl p c = HandlerOutcome.ok v → v ≠ JsValue.null) :
    (s.handleRequest requestData ah).response.arc = "1.0"
    ∧ (s.handleRequest requestData ah).response.responseAgent = s.agentId
    ∧ ((s.handleRequest requestData ah).response.result ≠ JsValue.null
        ↔ (s.handleRequest requestData ah).response.error = none) := by
  cases requestData with
  | none =>
    refine ⟨?_, ?_, ?_⟩ <;> simp [ARCServer.handleRequest]
  | some req =>
    rcases handleRequest_cases s req ah with
        ⟨e, _, hcase⟩ | ⟨m, e, _, _, hcase⟩ |
        ⟨idv, m, ra, p, hdl, actx, v, _, _, _, _, _, hh, _, ho, hcase⟩ |
        ⟨idv, m, ra, p, hdl, actx, ex, _, _, _, _, _, _, _, _, hcase⟩
    · rw [hcase]
      exact ⟨by simp, by simp, by simp⟩
    · rw [hcase]
      exact ⟨by simp, by simp, by simp⟩
    · rw [hcase]
      have hv : v ≠ JsValue.null := hnn m hdl hh p _ v ho
      exact ⟨rfl, rfl, by simp [hv]⟩
    · rw [hcase]
      exact ⟨by simp, by simp, by simp⟩

/-- The server of the C10 witness: its handler returns the non-null
string "ok". -/
def c10WServer : ARCServer :=
  { agentId := "agent-1"
    handlers := [("task.info", fun _ _ => HandlerOutcome.ok (JsValue.str "ok"))] }

/-- C10 witness: the amended invariant at a concrete server whose only
handler never returns `null`, via `C10_theorem`. -/
theorem C10_witness :
    (c10WServer.handleRequest (some c10Req) none).response.arc = "1.0"
    ∧ (c10WServer.handleRequest (some c10Req) none).response.responseAgent =
        c10WServer.agentId
    ∧ ((c10WServer.handleRequest (some c10Req) none).response.result ≠ JsValue.null
        ↔ (c10WServer.handleRequest (some c10Req) none).response.error = none) :=
  C10_theorem c10WServer (some c10Req) none (by
    intro method hdl hl p c v hv
    by_cases hme : (method == "task.info") = true
    · simp only [c10WServer, List.lookup, hme] at hl
      rw [← Option.some_inj.mp hl] at hv
      injection hv with h
      rw [← h]
      decide
    · simp only [c10WServer, List.lookup, hme] at hl
      cases hl)

end Arc
